import Mathlib

/-!
Verification of the AdeptSim RV32I simulator core (`src/mem.rs`, `src/alu.rs`,
`src/register_file.rs`, `src/riscv/isa.rs`, `src/riscv/decoder.rs`,
`src/bin/disassembler.rs`) against its natural-language specification.

Machine integers are embedded as `Nat` (unsigned) and `Int` (signed), with
explicit reduction modulo `2^32` where the code relies on wrap-around.
Rust panics are modelled with `Option`: a `none` result is an aborted
operation.
-/

set_option maxHeartbeats 1000000

/-- Reinterpretation of a `u32` bit pattern (a `Nat` below `2^32`) as an
`i32`, mirroring Rust `as i32`. -/
def i32_of_u32 (x : Nat) : Int :=
  if x < 2147483648 then (x : Int) else (x : Int) - 4294967296

/-- Bit pattern of an `i32` value as a `u32`, mirroring Rust `as u32`. -/
def u32_of_i32 (z : Int) : Nat :=
  (z % 4294967296).toNat

/-- Two's-complement wrap-around of an integer into the `i32` range,
the release-mode semantics of Rust `i32` arithmetic. -/
def wrap32 (z : Int) : Int :=
  (z + 2147483648) % 4294967296 - 2147483648

----------------------------------------------------------------
-- Generic bit-slicing lemmas used to reason about the byte-banked
-- memory and the program counter path.
----------------------------------------------------------------

/-- Masking with an 8-bit (or `m`-bit) field at offset `k` and shifting it
down extracts the corresponding slice, i.e. `(w >>> k) % 2^m`. -/
theorem and_shift_mask (w m k : Nat) :
    (w &&& ((2 ^ m - 1) <<< k)) >>> k = (w >>> k) % 2 ^ m := by
  apply Nat.eq_of_testBit_eq
  intro i
  simp only [Nat.testBit_shiftRight, Nat.testBit_and, Nat.testBit_shiftLeft,
    Nat.testBit_two_pow_sub_one, Nat.testBit_mod_two_pow]
  have h : k + i - k = i := by omega
  have h2 : k ≤ k + i := by omega
  simp [h, h2, Bool.and_comm]

theorem and_ff_eq_mod (w : Nat) : w &&& 0xff = w % 256 := by
  have h : (0xff : Nat) = 2 ^ 8 - 1 := by norm_num
  rw [h, Nat.and_pow_two_sub_one_eq_mod]

theorem byte1_eq (w : Nat) : (w &&& 0xff00) >>> 8 = w / 256 % 256 := by
  have h : (0xff00 : Nat) = (2 ^ 8 - 1) <<< 8 := by rw [Nat.shiftLeft_eq]; norm_num
  rw [h, and_shift_mask, Nat.shiftRight_eq_div_pow]
  norm_num

theorem byte2_eq (w : Nat) : (w &&& 0xff0000) >>> 16 = w / 65536 % 256 := by
  have h : (0xff0000 : Nat) = (2 ^ 8 - 1) <<< 16 := by rw [Nat.shiftLeft_eq]; norm_num
  rw [h, and_shift_mask, Nat.shiftRight_eq_div_pow]
  norm_num

theorem byte3_eq (w : Nat) : (w &&& 0xff000000) >>> 24 = w / 16777216 % 256 := by
  have h : (0xff000000 : Nat) = (2 ^ 8 - 1) <<< 24 := by rw [Nat.shiftLeft_eq]; norm_num
  rw [h, and_shift_mask, Nat.shiftRight_eq_div_pow]
  norm_num

/-- Recomposing the four little-endian bytes of a 32-bit word yields the
word back. -/
theorem word_recompose (w : Nat) (h : w < 4294967296) :
    (w / 16777216 % 256) <<< 24 ||| (w / 65536 % 256) <<< 16 |||
      (w / 256 % 256) <<< 8 ||| w % 256 = w := by
  rw [Nat.shiftLeft_eq, Nat.shiftLeft_eq, Nat.shiftLeft_eq]
  rw [show (w / 16777216 % 256) * 2 ^ 24 = 2 ^ 24 * (w / 16777216 % 256) by ring]
  rw [← Nat.mul_add_lt_is_or (by omega : (w / 65536 % 256) * 2 ^ 16 < 2 ^ 24)]
  rw [show 2 ^ 24 * (w / 16777216 % 256) + (w / 65536 % 256) * 2 ^ 16 =
    2 ^ 16 * ((w / 16777216 % 256) * 256 + w / 65536 % 256) by ring]
  rw [← Nat.mul_add_lt_is_or (by omega : (w / 256 % 256) * 2 ^ 8 < 2 ^ 16)]
  rw [show 2 ^ 16 * ((w / 16777216 % 256) * 256 + w / 65536 % 256) +
      (w / 256 % 256) * 2 ^ 8 =
    2 ^ 8 * (((w / 16777216 % 256) * 256 + w / 65536 % 256) * 256 +
      w / 256 % 256) by ring]
  rw [← Nat.mul_add_lt_is_or (by omega : w % 256 < 2 ^ 8)]
  omega

----------------------------------------------------------------
-- Memory (src/mem.rs)
----------------------------------------------------------------

/-- `Memory` from `src/mem.rs`: four byte banks.  Each bank is a
`Vec<u8>` of length `2^21` in the source; since every access index is
provably below that bound, a bank is embedded as a total function. -/
structure Memory where
  bank_0 : Nat → Nat
  bank_1 : Nat → Nat
  bank_2 : Nat → Nat
  bank_3 : Nat → Nat

def MEMORY_ADDR_SIZE : Nat := 21

/-- `Memory::new`: all banks zero-initialised. -/
def Memory.new : Memory :=
  ⟨fun _ => 0, fun _ => 0, fun _ => 0, fun _ => 0⟩

/-- `Memory::mask_addr`: `addr & ((1 << 21) + (1 << 21) - 1)`. -/
def Memory.mask_addr (addr : Nat) : Nat :=
  addr &&& ((1 <<< MEMORY_ADDR_SIZE) + (1 <<< MEMORY_ADDR_SIZE) - 1)

/-- `Memory::read_pc`: fetch the aligned word containing `pc`. -/
def Memory.read_pc (mem : Memory) (pc : Nat) : Nat :=
  let masked_pc := Memory.mask_addr pc >>> 2
  mem.bank_3 masked_pc <<< 24 ||| mem.bank_2 masked_pc <<< 16 |||
    mem.bank_1 masked_pc <<< 8 ||| mem.bank_0 masked_pc

/-- `Memory::get_data`: read one bank; a select value above 3 panics
(modelled as `none`). -/
def Memory.get_data (mem : Memory) (addr : Nat) (select_bank : Nat) : Option Nat :=
  if select_bank = 0 then some (mem.bank_0 addr)
  else if select_bank = 1 then some (mem.bank_1 addr)
  else if select_bank = 2 then some (mem.bank_2 addr)
  else if select_bank = 3 then some (mem.bank_3 addr)
  else none

/-- `Memory::put_data`: write one bank; a select value above 3 panics
(modelled as `none`). -/
def Memory.put_data (mem : Memory) (addr : Nat) (select_bank : Nat) (data : Nat) :
    Option Memory :=
  if select_bank = 0 then
    some { mem with bank_0 := fun a => if a = addr then data else mem.bank_0 a }
  else if select_bank = 1 then
    some { mem with bank_1 := fun a => if a = addr then data else mem.bank_1 a }
  else if select_bank = 2 then
    some { mem with bank_2 := fun a => if a = addr then data else mem.bank_2 a }
  else if select_bank = 3 then
    some { mem with bank_3 := fun a => if a = addr then data else mem.bank_3 a }
  else none

/-- Memory load operations (`MemLoadOp`). -/
inductive MemLoadOp
  | LoadByte
  | LoadHalf
  | LoadWord
  | LoadByteUnsigned
  | LoadHalfUnsigned
  | InvalidLoad
deriving DecidableEq

/-- Memory store operations (`MemStoreOp`). -/
inductive MemStoreOp
  | StoreByte
  | StoreHalf
  | StoreWord
  | InvalidStore
deriving DecidableEq

/-- `Memory::load_data`.  A panic (invalid operation, or a bank select
pushed past 3 by the low address bits) is `none`. -/
def Memory.load_data (mem : Memory) (op : MemLoadOp) (addr : Nat) : Option Int :=
  let masked_addr := Memory.mask_addr addr >>> 2
  let addr_lsbs := addr &&& 0x3
  match op with
  | MemLoadOp.LoadByte =>
    (mem.get_data masked_addr addr_lsbs).bind fun data =>
      let sign_extend : Nat := if (data &&& 0x80) >>> 7 = 1 then 0xffffff00 else 0
      some (i32_of_u32 (sign_extend ||| data))
  | MemLoadOp.LoadHalf =>
    (mem.get_data masked_addr addr_lsbs).bind fun data_0 =>
      (mem.get_data masked_addr (addr_lsbs + 1)).bind fun data_1 =>
        let sign_extend : Nat := if (data_1 &&& 0x80) >>> 7 = 1 then 0xffff0000 else 0
        some (i32_of_u32 (sign_extend ||| data_1 <<< 8 ||| data_0))
  | MemLoadOp.LoadWord =>
    (mem.get_data masked_addr addr_lsbs).bind fun data_0 =>
      (mem.get_data masked_addr (addr_lsbs + 1)).bind fun data_1 =>
        (mem.get_data masked_addr (addr_lsbs + 2)).bind fun data_2 =>
          (mem.get_data masked_addr (addr_lsbs + 3)).bind fun data_3 =>
            some (i32_of_u32 (data_3 <<< 24 ||| data_2 <<< 16 ||| data_1 <<< 8 |||
              data_0))
  | MemLoadOp.LoadByteUnsigned =>
    (mem.get_data masked_addr addr_lsbs).bind fun data => some ((data : Int))
  | MemLoadOp.LoadHalfUnsigned =>
    (mem.get_data masked_addr addr_lsbs).bind fun data_0 =>
      (mem.get_data masked_addr (addr_lsbs + 1)).bind fun data_1 =>
        some (i32_of_u32 (data_1 <<< 8 ||| data_0))
  | MemLoadOp.InvalidLoad => none

/-- `Memory::write_data`.  The four split bytes are the source's
`split_data` tuple; `as u8` is `% 256`. -/
def Memory.write_data (mem : Memory) (op : MemStoreOp) (addr : Nat) (data : Nat) :
    Option Memory :=
  let split_data_0 := data &&& 0x000000ff
  let split_data_1 := (data &&& 0x0000ff00) >>> 8
  let split_data_2 := (data &&& 0x00ff0000) >>> 16
  let split_data_3 := (data &&& 0xff000000) >>> 24
  let masked_addr := Memory.mask_addr addr >>> 2
  let addr_lsbs := addr &&& 0x3
  match op with
  | MemStoreOp.StoreByte => mem.put_data masked_addr addr_lsbs (split_data_0 % 256)
  | MemStoreOp.StoreHalf =>
    (mem.put_data masked_addr addr_lsbs (split_data_0 % 256)).bind fun mem1 =>
      mem1.put_data masked_addr (addr_lsbs + 1) (split_data_1 % 256)
  | MemStoreOp.StoreWord =>
    (mem.put_data masked_addr addr_lsbs (split_data_0 % 256)).bind fun mem1 =>
      (mem1.put_data masked_addr (addr_lsbs + 1) (split_data_1 % 256)).bind fun mem2 =>
        (mem2.put_data masked_addr (addr_lsbs + 2) (split_data_2 % 256)).bind fun mem3 =>
          mem3.put_data masked_addr (addr_lsbs + 3) (split_data_3 % 256)
  | MemStoreOp.InvalidStore => none

theorem mask_addr_const : ((1 <<< MEMORY_ADDR_SIZE) + (1 <<< MEMORY_ADDR_SIZE) - 1 : Nat) = 0x3FFFFF := by
  decide

/-- Claim C2 (amended): `load_data` depends on the address only through its
low 22 bits: the source mask `(1 << 21) + (1 << 21) - 1` is `0x3FFFFF`. -/
theorem load_data_mask22_equiv (mem : Memory) (op : MemLoadOp) (addr : Nat) :
    mem.load_data op addr = mem.load_data op (addr &&& 0x3FFFFF) := by
  have h1 : Memory.mask_addr (addr &&& 0x3FFFFF) = Memory.mask_addr addr := by
    unfold Memory.mask_addr
    rw [mask_addr_const, Nat.and_assoc]
    norm_num
  have h2 : (addr &&& 0x3FFFFF) &&& 0x3 = addr &&& 0x3 := by
    rw [Nat.and_assoc]
    congr 1
  unfold Memory.load_data
  rw [h1, h2]

/-- Memory with one nonzero byte at physical address `0x200000` (bit 21
set), distinguishing the 22-bit mask from the claimed 21-bit one. -/
def mem_bit21 : Memory :=
  (Memory.new.write_data MemStoreOp.StoreByte 0x200000 1).getD Memory.new

/-- Claim C2 (counterexample): `load_data(op, addr)` differs from
`load_data(op, addr & 0x1FFFFF)` at `addr = 0x200000`: the code keeps 22
address bits, not 21. -/
theorem load_data_mask21_counterexample :
    mem_bit21.load_data MemLoadOp.LoadByte 0x200000 ≠
      mem_bit21.load_data MemLoadOp.LoadByte (0x200000 &&& 0x1FFFFF) := by
  decide

/-- Claim C10: instruction fetch ignores the two lowest bits of the PC and
never faults: `read_pc(pc) = read_pc(pc & 0xFFFF_FFFC)`. -/
theorem read_pc_ignores_low_bits (mem : Memory) (pc : Nat) :
    mem.read_pc pc = mem.read_pc (pc &&& 0xFFFFFFFC) := by
  have h : Memory.mask_addr (pc &&& 0xFFFFFFFC) >>> 2 = Memory.mask_addr pc >>> 2 := by
    unfold Memory.mask_addr
    rw [mask_addr_const, Nat.and_assoc]
    rw [show (0xFFFFFFFC &&& 0x3FFFFF : Nat) = (2 ^ 20 - 1) <<< 2 by decide]
    rw [and_shift_mask]
    rw [show (0x3FFFFF : Nat) = 2 ^ 22 - 1 by norm_num]
    rw [Nat.and_pow_two_sub_one_eq_mod]
    rw [Nat.shiftRight_eq_div_pow, Nat.shiftRight_eq_div_pow]
    norm_num
    omega
  unfold Memory.read_pc
  rw [h]

/-- Claim C4 (amended): a half-width access aborts exactly when both low
address bits are set (`addr & 3 = 3`); addresses with low bits `00`, `01`
or `10` complete. -/
theorem half_access_fatal_iff_lsbs3 (mem : Memory) (addr data : Nat) :
    (mem.load_data MemLoadOp.LoadHalf addr = none ↔ addr &&& 3 = 3) ∧
    (mem.load_data MemLoadOp.LoadHalfUnsigned addr = none ↔ addr &&& 3 = 3) ∧
    (mem.write_data MemStoreOp.StoreHalf addr data = none ↔ addr &&& 3 = 3) := by
  have h3 : addr &&& 3 = addr % 4 := by
    rw [show (3 : Nat) = 2 ^ 2 - 1 by norm_num, Nat.and_pow_two_sub_one_eq_mod]
  have hcase : addr &&& 3 = 0 ∨ addr &&& 3 = 1 ∨ addr &&& 3 = 2 ∨ addr &&& 3 = 3 := by
    omega
  rcases hcase with h | h | h | h <;>
    simp [Memory.load_data, Memory.write_data, Memory.get_data, Memory.put_data,
      h, Option.bind]

/-- Claim C4 (counterexample): a half-word load at the odd address `1`
(low bits `01`) completes instead of aborting. -/
theorem half_access_lsb01_completes :
    Memory.new.load_data MemLoadOp.LoadHalf 1 = some 0 ∧
      (Memory.new.write_data MemStoreOp.StoreHalf 1 0xabcd).isSome = true ∧
      (1 : Nat) &&& 1 = 1 := by
  constructor
  · decide
  · constructor <;> decide

theorem mod256_mod256 (x : Nat) : x % 256 % 256 = x % 256 :=
  Nat.mod_mod_of_dvd x dvd_rfl

/-- Claim C6: storing a word at a 4-aligned address and loading it back
returns the word reinterpreted as `i32`. -/
theorem store_load_word_roundtrip (mem : Memory) (addr w : Nat)
    (halign : addr &&& 0x3 = 0) (hw : w < 4294967296) :
    (mem.write_data MemStoreOp.StoreWord addr w).bind
      (fun m => m.load_data MemLoadOp.LoadWord addr) = some (i32_of_u32 w) := by
  simp only [Memory.write_data, Memory.load_data, halign]
  simp only [Memory.put_data, Memory.get_data]
  norm_num [Option.bind]
  rw [and_ff_eq_mod, byte1_eq, byte2_eq, byte3_eq]
  simp only [mod256_mod256]
  rw [word_recompose w hw]

/-- Claim C6 (witness): concrete round-trip at address `0x40babc`. -/
theorem store_load_word_roundtrip_witness :
    (Memory.new.write_data MemStoreOp.StoreWord 0x40babc 0xdeadbeef).bind
      (fun m => m.load_data MemLoadOp.LoadWord 0x40babc) =
      some (i32_of_u32 0xdeadbeef) :=
  store_load_word_roundtrip Memory.new 0x40babc 0xdeadbeef (by decide) (by decide)

----------------------------------------------------------------
-- ALU (src/alu.rs)
----------------------------------------------------------------

/-- ALU operation codes (`AluOpList`). -/
inductive AluOpList
  | Add
  | Sub
  | Sll
  | Slt
  | Sltu
  | Xor
  | Srl
  | Sra
  | Or
  | And
  | Invalid
deriving DecidableEq

/-- `AluOp`: operation plus the operand-b/immediate switch. -/
structure AluOp where
  op : AluOpList
  switch_2_imm : Bool

/-- `alu` from `src/alu.rs`.  `i32` arithmetic is embedded with its
release-mode wrap-around semantics (`wrap32`); bit operations go through
the `u32` bit pattern. -/
def alu (op_a op_b imm : Int) (op : AluOp) : Int :=
  let operand_b := if op.switch_2_imm then imm else op_b
  match op.op with
  | AluOpList.Add => wrap32 (op_a + operand_b)
  | AluOpList.Sub => wrap32 (op_a - operand_b)
  | AluOpList.Sll =>
    i32_of_u32 ((u32_of_i32 op_a <<< (u32_of_i32 operand_b &&& 0x1f)) % 4294967296)
  | AluOpList.Slt => if op_a < operand_b then 1 else 0
  | AluOpList.Sltu => if u32_of_i32 op_a < u32_of_i32 operand_b then 1 else 0
  | AluOpList.Xor => i32_of_u32 (u32_of_i32 op_a ^^^ u32_of_i32 operand_b)
  | AluOpList.Srl => i32_of_u32 (u32_of_i32 op_a >>> (u32_of_i32 operand_b &&& 0x1f))
  | AluOpList.Sra => op_a >>> (((u32_of_i32 operand_b &&& 0x1f : Nat)) : Int)
  | AluOpList.Or => i32_of_u32 (u32_of_i32 op_a ||| u32_of_i32 operand_b)
  | AluOpList.And => i32_of_u32 (u32_of_i32 op_a &&& u32_of_i32 operand_b)
  | AluOpList.Invalid => -1

/-- Claim C5: ALU `Add` and `Sub` are two's-complement wrapping: for
in-range operands the result is in the `i32` range and congruent to the
exact sum / difference modulo `2^32`; there is no failure path. -/
theorem alu_add_sub_wrapping (a b imm : Int) (sw : Bool)
    (ha1 : -2147483648 ≤ a) (ha2 : a < 2147483648)
    (hb1 : -2147483648 ≤ (if sw then imm else b))
    (hb2 : (if sw then imm else b) < 2147483648) :
    (-2147483648 ≤ alu a b imm ⟨AluOpList.Add, sw⟩ ∧
      alu a b imm ⟨AluOpList.Add, sw⟩ < 2147483648 ∧
      (alu a b imm ⟨AluOpList.Add, sw⟩ - (a + (if sw then imm else b))) %
        4294967296 = 0) ∧
    (-2147483648 ≤ alu a b imm ⟨AluOpList.Sub, sw⟩ ∧
      alu a b imm ⟨AluOpList.Sub, sw⟩ < 2147483648 ∧
      (alu a b imm ⟨AluOpList.Sub, sw⟩ - (a - (if sw then imm else b))) %
        4294967296 = 0) := by
  simp only [alu, wrap32]
  omega

/-- Claim C5 (witness): `i32::MAX + 1` wraps to `i32::MIN` and
`i32::MIN - 1` wraps back, silently. -/
theorem alu_add_sub_wrapping_witness :
    (-2147483648 ≤ alu 2147483647 1 0 ⟨AluOpList.Add, false⟩ ∧
      alu 2147483647 1 0 ⟨AluOpList.Add, false⟩ < 2147483648 ∧
      (alu 2147483647 1 0 ⟨AluOpList.Add, false⟩ -
        (2147483647 + (if false then (0:Int) else 1))) % 4294967296 = 0) ∧
    (-2147483648 ≤ alu 2147483647 1 0 ⟨AluOpList.Sub, false⟩ ∧
      alu 2147483647 1 0 ⟨AluOpList.Sub, false⟩ < 2147483648 ∧
      (alu 2147483647 1 0 ⟨AluOpList.Sub, false⟩ -
        (2147483647 - (if false then (0:Int) else 1))) % 4294967296 = 0) :=
  alu_add_sub_wrapping 2147483647 1 0 false (by decide) (by decide) (by decide)
    (by decide)

----------------------------------------------------------------
-- RegisterFile (src/register_file.rs)
----------------------------------------------------------------

/-- `RegisterFile`: 31 stored slots (`registers[rsd - 1]` holds register
`rsd`); register 0 is hardwired.  The `Vec<i32>` of length 31 is embedded
as a total function, every guarded access index being below 31. -/
structure RegisterFile where
  registers : Nat → Int

/-- `RegisterFile::new`: all registers zero. -/
def RegisterFile.new : RegisterFile := ⟨fun _ => 0⟩

/-- `RegisterFile::write`: ignored for register 0 and ids above 31. -/
def RegisterFile.write (rf : RegisterFile) (rsd : Nat) (data : Int) : RegisterFile :=
  if rsd ≠ 0 ∧ rsd < 32 then
    ⟨fun i => if i = rsd - 1 then data else rf.registers i⟩
  else rf

/-- `RegisterFile::read`: dual read; register 0 and ids above 31 read 0. -/
def RegisterFile.read (rf : RegisterFile) (rs1 rs2 : Nat) : Int × Int :=
  (if rs1 = 0 ∨ 32 ≤ rs1 then 0 else rf.registers (rs1 - 1),
   if rs2 = 0 ∨ 32 ≤ rs2 then 0 else rf.registers (rs2 - 1))

/-- Claim C7: writes to register 0 or any id `≥ 32` are silently ignored
and otherwise set the slot; reads return the slot value except that id 0
or any id `≥ 32` yields 0; both operations are total. -/
theorem register_file_write_read_spec (rf : RegisterFile) (idx : Nat) (v : Int)
    (j : Nat) :
    ((idx = 0 ∨ 32 ≤ idx) → rf.write idx v = rf) ∧
    (idx ≠ 0 → idx < 32 → ((rf.write idx v).read idx j).1 = v) ∧
    (((rf.read idx j).1 = if idx = 0 ∨ 32 ≤ idx then 0 else rf.registers (idx - 1)) ∧
     ((rf.read idx j).2 = if j = 0 ∨ 32 ≤ j then 0 else rf.registers (j - 1))) := by
  refine ⟨?_, ?_, rfl, rfl⟩
  · intro h
    simp only [RegisterFile.write]
    rw [if_neg]
    omega
  · intro h1 h2
    have hw : rf.write idx v = ⟨fun i => if i = idx - 1 then v else rf.registers i⟩ := by
      simp only [RegisterFile.write]
      rw [if_pos]
      exact ⟨h1, h2⟩
    rw [hw]
    simp only [RegisterFile.read]
    rw [if_neg (by omega)]
    simp

/-- Claim C7 (witness): writing register 5 then reading it back returns
the value; a write to register 0 is ignored. -/
theorem register_file_write_read_spec_witness :
    ((RegisterFile.new.write 5 7).read 5 0).1 = 7 ∧
      RegisterFile.new.write 0 9 = RegisterFile.new :=
  ⟨(register_file_write_read_spec RegisterFile.new 5 7 0).2.1 (by decide) (by decide),
   (register_file_write_read_spec RegisterFile.new 0 9 0).1 (Or.inl rfl)⟩

----------------------------------------------------------------
-- Disassembler ASCII column (src/bin/disassembler.rs)
----------------------------------------------------------------

/-- `byte_in_char` from `src/bin/disassembler.rs`, the function feeding
the ASCII column of the disassembler output. -/
def byte_in_char (byte_in : Nat) : Char :=
  if 126 < byte_in ∨ byte_in < 32 then '.' else Char.ofNat byte_in

/-- Claim C9: a byte is rendered as its ASCII character exactly when its
value lies in `[32, 126]`, and as a dot otherwise. -/
theorem byte_in_char_printable_range (b : Nat) :
    byte_in_char b = if 32 ≤ b ∧ b ≤ 126 then Char.ofNat b else '.' := by
  simp only [byte_in_char]
  by_cases h : 32 ≤ b ∧ b ≤ 126
  · rw [if_neg (by omega), if_pos h]
  · rw [if_pos (by omega), if_neg h]

----------------------------------------------------------------
-- Instruction set (src/riscv/mod.rs, src/riscv/isa.rs)
----------------------------------------------------------------

def RV32_OP_CODES_ARITH_IMM : Nat := 0x13
def RV32_OP_CODES_ARITH_REG : Nat := 0x33
def RV32_OP_CODES_MEM_LD : Nat := 0x03
def RV32_OP_CODES_MEM_ST : Nat := 0x23
def RV32_OP_CODES_BR : Nat := 0x63
def RV32_OP_CODES_JALR : Nat := 0x67
def RV32_OP_CODES_JAL : Nat := 0x6f
def RV32_OP_CODES_AUIPC : Nat := 0x17
def RV32_OP_CODES_LUI : Nat := 0x37

/-- Instruction register types (`RVT`). -/
inductive RVT
  | R
  | I
  | S
  | B
  | U
  | J
  | Invalid
deriving DecidableEq

/-- `RVT::new`: major opcode to format; the source `match` is embedded as
an equality chain in the same order. -/
def RVT.new (op_code : Nat) : RVT :=
  if op_code = RV32_OP_CODES_LUI then RVT.U
  else if op_code = RV32_OP_CODES_AUIPC then RVT.U
  else if op_code = RV32_OP_CODES_JAL then RVT.J
  else if op_code = RV32_OP_CODES_JALR then RVT.I
  else if op_code = RV32_OP_CODES_BR then RVT.B
  else if op_code = RV32_OP_CODES_MEM_LD then RVT.I
  else if op_code = RV32_OP_CODES_MEM_ST then RVT.S
  else if op_code = RV32_OP_CODES_ARITH_REG then RVT.R
  else if op_code = RV32_OP_CODES_ARITH_IMM then RVT.I
  else RVT.Invalid

/-- The RV32I mnemonics (`RV32I`). -/
inductive RV32I
  | ADDI | SLTI | SLTIU | XORI | ORI | ANDI | SLLI | SRLI | SRAI
  | ADD | SUB | SLL | SLT | SLTU | XOR | SRL | SRA | OR | AND
  | LB | LH | LW | LBU | LHU
  | SB | SH | SW
  | JAL | JALR
  | BEQ | BNE | BLT | BGE | BLTU | BGEU
  | LUI | AUIPC
  | Invalid
deriving DecidableEq

/-- `RV32I::new`: opcode, funct3 and option bit to mnemonic. -/
def RV32I.new (op_code funct3 : Nat) (option_op : Bool) : RV32I :=
  if op_code = RV32_OP_CODES_LUI then RV32I.LUI
  else if op_code = RV32_OP_CODES_AUIPC then RV32I.AUIPC
  else if op_code = RV32_OP_CODES_JAL then RV32I.JAL
  else if op_code = RV32_OP_CODES_JALR then
    (if funct3 = 0 then RV32I.JALR else RV32I.Invalid)
  else if op_code = RV32_OP_CODES_BR then
    (if funct3 = 0 then RV32I.BEQ
     else if funct3 = 1 then RV32I.BNE
     else if funct3 = 4 then RV32I.BLT
     else if funct3 = 5 then RV32I.BGE
     else if funct3 = 6 then RV32I.BLTU
     else if funct3 = 7 then RV32I.BGEU
     else RV32I.Invalid)
  else if op_code = RV32_OP_CODES_MEM_LD then
    (if funct3 = 0 then RV32I.LB
     else if funct3 = 1 then RV32I.LH
     else if funct3 = 2 then RV32I.LW
     else if funct3 = 4 then RV32I.LBU
     else if funct3 = 5 then RV32I.LHU
     else RV32I.Invalid)
  else if op_code = RV32_OP_CODES_MEM_ST then
    (if funct3 = 0 then RV32I.SB
     else if funct3 = 1 then RV32I.SH
     else if funct3 = 2 then RV32I.SW
     else RV32I.Invalid)
  else if op_code = RV32_OP_CODES_ARITH_REG then
    (if funct3 = 0 then (if !option_op then RV32I.ADD else RV32I.SUB)
     else if funct3 = 1 then RV32I.SLL
     else if funct3 = 2 then RV32I.SLT
     else if funct3 = 3 then RV32I.SLTU
     else if funct3 = 4 then RV32I.XOR
     else if funct3 = 5 then (if option_op then RV32I.SRA else RV32I.SRL)
     else if funct3 = 6 then RV32I.OR
     else if funct3 = 7 then RV32I.AND
     else RV32I.Invalid)
  else if op_code = RV32_OP_CODES_ARITH_IMM then
    (if funct3 = 0 then RV32I.ADDI
     else if funct3 = 1 then RV32I.SLLI
     else if funct3 = 2 then RV32I.SLTI
     else if funct3 = 3 then RV32I.SLTIU
     else if funct3 = 4 then RV32I.XORI
     else if funct3 = 5 then (if option_op then RV32I.SRAI else RV32I.SRLI)
     else if funct3 = 6 then RV32I.ORI
     else if funct3 = 7 then RV32I.ANDI
     else RV32I.Invalid)
  else RV32I.Invalid

/-- `InstrType`: format tag plus mnemonic. -/
structure InstrType where
  instr_type : RVT
  instr_op : RV32I
deriving DecidableEq

def InstrType.new (op_code funct3 : Nat) (option_op : Bool) : InstrType :=
  ⟨RVT.new op_code, RV32I.new op_code funct3 option_op⟩

def InstrType.has_option (it : InstrType) : Bool :=
  it.instr_op == RV32I.SLLI || it.instr_op == RV32I.SRLI || it.instr_op == RV32I.SRAI

def InstrType.has_rd (it : InstrType) : Bool :=
  it.instr_type == RVT.R || it.instr_type == RVT.I || it.instr_type == RVT.U ||
    it.instr_type == RVT.J

def InstrType.has_rs1 (it : InstrType) : Bool :=
  it.instr_type == RVT.R || it.instr_type == RVT.I || it.instr_type == RVT.S ||
    it.instr_type == RVT.B

def InstrType.has_rs2 (it : InstrType) : Bool :=
  it.instr_type == RVT.R || it.instr_type == RVT.S || it.instr_type == RVT.B

----------------------------------------------------------------
-- Decoder (src/riscv/decoder.rs)
----------------------------------------------------------------

/-- Decoded `Instruction`. -/
structure Instruction where
  instr : InstrType
  rd : Option Nat
  rs1 : Option Nat
  rs2 : Option Nat
  shamt : Option Nat
  imm : Option Int
deriving DecidableEq

/-- Bitwise or of two `i32` values through their `u32` bit patterns,
mirroring Rust `|` on `i32`. -/
def i32_lor (a b : Int) : Int :=
  i32_of_u32 (u32_of_i32 a ||| u32_of_i32 b)

/-- `Instruction::new`: decode a raw 32-bit word.  The `i32` casts and
arithmetic right shifts of the immediate construction are embedded through
`i32_of_u32` and `Int` arithmetic shifts; `|` on `i32` is `i32_lor`. -/
def Instruction.new (raw_instr : Nat) : Instruction :=
  let op_code := raw_instr &&& 0x0000007f
  let funct3 := (raw_instr &&& 0x00007000) >>> 12
  let option_op : Bool := ((raw_instr &&& 0x40000000) >>> 30) != 0
  let instr := InstrType.new op_code funct3 option_op
  let rd := if instr.has_rd then some ((raw_instr &&& 0x00000f80) >>> 7) else none
  let rs1 := if instr.has_rs1 then some ((raw_instr &&& 0x000f8000) >>> 15) else none
  let rs2 := if instr.has_rs2 then some ((raw_instr &&& 0x01f00000) >>> 20) else none
  let shamt := if instr.has_option then some ((raw_instr &&& 0x01f00000) >>> 20)
    else none
  let imm : Option Int :=
    if shamt.isNone then
      match instr.instr_type with
      | RVT.I => some (i32_of_u32 (raw_instr &&& 0xfff00000) >>> (20 : Int))
      | RVT.S => some (i32_lor
          (i32_of_u32 (raw_instr &&& 0xfe000000) >>> (20 : Int))
          (i32_of_u32 (raw_instr &&& 0x00000f80) >>> (7 : Int)))
      | RVT.B => some (i32_lor (i32_lor (i32_lor
          (i32_of_u32 (raw_instr &&& 0x80000000) >>> (19 : Int))
          (i32_of_u32 (raw_instr &&& 0x7e000000) >>> (20 : Int)))
          (i32_of_u32 (raw_instr &&& 0x00000f00) >>> (7 : Int)))
          (i32_of_u32 (raw_instr &&& 0x00000080) <<< (4 : Int)))
      | RVT.U => some (i32_of_u32 (raw_instr &&& 0xffff0000))
      | RVT.J => some (i32_lor (i32_lor (i32_lor
          (i32_of_u32 (raw_instr &&& 0x7fe00000) >>> (20 : Int))
          (i32_of_u32 (raw_instr &&& 0x00100000) >>> (9 : Int)))
          (i32_of_u32 (raw_instr &&& 0x000ff000)))
          (i32_of_u32 (raw_instr &&& 0x80000000) >>> (11 : Int)))
      | _ => none
    else none
  ⟨instr, rd, rs1, rs2, shamt, imm⟩

/-- `Instruction::is_valid`: the simulator loop in `src/main.rs` breaks
(halts) exactly when this is `false`. -/
def Instruction.is_valid (i : Instruction) : Bool :=
  i.instr.instr_type != RVT.Invalid

/-- The U-format immediate as the specification words it:
`bits[31:12] ∥ 12'b0`, read as a signed 32-bit value. -/
def u_imm_spec (w : Nat) : Int :=
  i32_of_u32 (w &&& 0xfffff000)

/-- Claim C1: at the LUI word `0x000010b7` (upper-immediate field `1`)
the decoder produces `imm = 0`, not the specified `bits[31:12] ∥ 12'b0 =
0x1000`: the source masks with `0xffff_0000` instead of `0xfffff000`. -/
theorem decoder_u_imm_uses_upper16_bug :
    (Instruction.new 0x000010b7).instr.instr_op = RV32I.LUI ∧
    (Instruction.new 0x000010b7).instr.instr_type = RVT.U ∧
    (Instruction.new 0x000010b7).imm = some 0 ∧
    u_imm_spec 0x000010b7 = 4096 ∧
    (Instruction.new 0x000010b7).imm ≠ some (u_imm_spec 0x000010b7) := by
  refine ⟨by decide, by decide, by decide, by decide, by decide⟩

/-- Claim C3 (counterexample): the word `0x00003003` has the known load
opcode `0x03` but the unassigned `funct3 = 3`; the decoder keeps
`format = I` (not `Invalid`) and `is_valid()` stays `true`, so the
simulator loop does not halt on it. -/
theorem decoder_known_opcode_bad_funct3_not_halt :
    (Instruction.new 0x00003003).instr.instr_op = RV32I.Invalid ∧
    (Instruction.new 0x00003003).instr.instr_type = RVT.I ∧
    (Instruction.new 0x00003003).is_valid = true := by
  refine ⟨by decide, by decide, by decide⟩

/-- Claim C3 (amended): a word whose major opcode is none of the nine
assigned RV32I opcodes decodes with `format = Invalid`,
`mnemonic = Invalid` and `is_valid() = false`, the loop's halt
condition. -/
theorem decoder_unknown_opcode_invalid (w : Nat)
    (h : ¬(w &&& 0x7f = 0x37 ∨ w &&& 0x7f = 0x17 ∨ w &&& 0x7f = 0x6f ∨
        w &&& 0x7f = 0x67 ∨ w &&& 0x7f = 0x63 ∨ w &&& 0x7f = 0x03 ∨
        w &&& 0x7f = 0x23 ∨ w &&& 0x7f = 0x33 ∨ w &&& 0x7f = 0x13)) :
    (Instruction.new w).instr.instr_type = RVT.Invalid ∧
    (Instruction.new w).instr.instr_op = RV32I.Invalid ∧
    (Instruction.new w).is_valid = false := by
  push_neg at h
  obtain ⟨h37, h17, h6f, h67, h63, h03, h23, h33, h13⟩ := h
  simp [Instruction.new, InstrType.new, Instruction.is_valid, RVT.new, RV32I.new,
    RV32_OP_CODES_LUI, RV32_OP_CODES_AUIPC, RV32_OP_CODES_JAL, RV32_OP_CODES_JALR,
    RV32_OP_CODES_BR, RV32_OP_CODES_MEM_LD, RV32_OP_CODES_MEM_ST,
    RV32_OP_CODES_ARITH_REG, RV32_OP_CODES_ARITH_IMM, InstrType.has_rd,
    InstrType.has_rs1, InstrType.has_rs2, InstrType.has_option,
    h37, h17, h6f, h67, h63, h03, h23, h33, h13]

/-- Claim C3 (witness): the all-zero word has the unassigned opcode `0`
and halts the loop. -/
theorem decoder_unknown_opcode_invalid_witness :
    (Instruction.new 0).instr.instr_type = RVT.Invalid ∧
    (Instruction.new 0).instr.instr_op = RV32I.Invalid ∧
    (Instruction.new 0).is_valid = false :=
  decoder_unknown_opcode_invalid 0 (by decide)

----------------------------------------------------------------
-- Pseudo-instruction collapse (src/riscv/decoder.rs,
-- PseudoInstrWith1Instr::new).  The source is a first-match-wins
-- sequence of guarded blocks with early returns, embedded as an
-- `Option`-chain in the same order.
----------------------------------------------------------------

structure PseudoInstrWith1Instr where
  instr : Instruction
  is_pseudo : Bool
  code : String
  rd : Option Nat
  rs : Option Nat
  rt : Option Nat
  offset : Option Int

/-- Block 1 of `PseudoInstrWith1Instr::new` (`rd = x0`). -/
def pseudo_rd_zero (i : Instruction) : Option PseudoInstrWith1Instr :=
  if i.rd = some 0 then
    match i.instr.instr_op with
    | RV32I.JAL => some ⟨i, true, "j", none, none, none, i.imm⟩
    | RV32I.JALR =>
      if i.rs1 = some 1 then some ⟨i, true, "ret", none, none, none, none⟩
      else some ⟨i, true, "jr", none, i.rs1, none, none⟩
    | RV32I.ADDI =>
      if i.rs1 = some 0 ∧ i.imm = some 0 then
        some ⟨i, true, "nop", none, none, none, none⟩
      else none
    | _ => none
  else none

/-- Block 2 (`rd = x1`). -/
def pseudo_rd_ra (i : Instruction) : Option PseudoInstrWith1Instr :=
  if i.rd = some 1 then
    match i.instr.instr_op with
    | RV32I.JAL => some ⟨i, true, "jal", none, none, none, i.imm⟩
    | RV32I.JALR => some ⟨i, true, "jalr", none, i.rs1, none, none⟩
    | _ => none
  else none

/-- Block 3 (`rs2 = x0`). -/
def pseudo_rs2_zero (i : Instruction) : Option PseudoInstrWith1Instr :=
  if i.rs2 = some 0 then
    match i.instr.instr_op with
    | RV32I.SUB => some ⟨i, true, "neg", i.rd, i.rs1, none, none⟩
    | RV32I.SLTU => some ⟨i, true, "snez", i.rd, i.rs1, none, none⟩
    | RV32I.SLT => some ⟨i, true, "sgtz", i.rd, i.rs1, none, none⟩
    | RV32I.BGE => some ⟨i, true, "blez", none, i.rs1, none, i.imm⟩
    | RV32I.BLT => some ⟨i, true, "bgtz", none, i.rs1, none, i.imm⟩
    | _ => none
  else none

/-- Block 4 (`rs1 = x0`); note the source maps both `BGE` and `BLT` to
`bgez` here. -/
def pseudo_rs1_zero (i : Instruction) : Option PseudoInstrWith1Instr :=
  if i.rs1 = some 0 then
    match i.instr.instr_op with
    | RV32I.SLT => some ⟨i, true, "sltz", i.rd, i.rs2, none, none⟩
    | RV32I.BEQ => some ⟨i, true, "beqz", none, i.rs2, none, i.imm⟩
    | RV32I.BNE => some ⟨i, true, "bnez", none, i.rs2, none, i.imm⟩
    | RV32I.BGE => some ⟨i, true, "bgez", none, i.rs2, none, i.imm⟩
    | RV32I.BLT => some ⟨i, true, "bgez", none, i.rs2, none, i.imm⟩
    | _ => none
  else none

/-- Block 5 (`offset = 0`, `ADDI`). -/
def pseudo_offset_zero (i : Instruction) : Option PseudoInstrWith1Instr :=
  if i.imm = some 0 ∧ i.instr.instr_op = RV32I.ADDI then
    some ⟨i, true, "mv", i.rd, i.rs1, none, none⟩
  else none

/-- Block 6 (`offset = -1`, `XORI`). -/
def pseudo_offset_minus_one (i : Instruction) : Option PseudoInstrWith1Instr :=
  if i.imm = some (-1) ∧ i.instr.instr_op = RV32I.XORI then
    some ⟨i, true, "not", i.rd, i.rs1, none, none⟩
  else none

/-- Block 7 (`offset = 1`, `SLTIU`). -/
def pseudo_offset_one (i : Instruction) : Option PseudoInstrWith1Instr :=
  if i.imm = some 1 ∧ i.instr.instr_op = RV32I.SLTIU then
    some ⟨i, true, "seqz", i.rd, i.rs1, none, none⟩
  else none

/-- Final `match` of `PseudoInstrWith1Instr::new`. -/
def pseudo_fallback (i : Instruction) : PseudoInstrWith1Instr :=
  match i.instr.instr_op with
  | RV32I.BLT => ⟨i, true, "bgt", none, i.rs1, i.rs2, i.imm⟩
  | RV32I.BGE => ⟨i, true, "ble", none, i.rs1, i.rs2, i.imm⟩
  | RV32I.BLTU => ⟨i, true, "bgtu", none, i.rs1, i.rs2, i.imm⟩
  | RV32I.BGEU => ⟨i, true, "bleu", none, i.rs1, i.rs2, i.imm⟩
  | _ => ⟨i, false, "", none, none, none, none⟩

/-- `PseudoInstrWith1Instr::new`: first matching block wins. -/
def PseudoInstrWith1Instr.new (instr_in : Instruction) : PseudoInstrWith1Instr :=
  (pseudo_rd_zero instr_in <|> pseudo_rd_ra instr_in <|> pseudo_rs2_zero instr_in <|>
    pseudo_rs1_zero instr_in <|> pseudo_offset_zero instr_in <|>
    pseudo_offset_minus_one instr_in <|> pseudo_offset_one instr_in).getD
    (pseudo_fallback instr_in)

/-- Claim C8: a decoded `BLT` with `rs1 = x0` and `rs2 ≠ x0` falls past
the `rd` and `rs2` blocks and is collapsed by the `rs1 = x0` block to the
source's literal `bgez` mnemonic. -/
theorem pseudo_blt_rs1_zero_bgez (w : Nat)
    (hop : w &&& 0x0000007f = 0x63)
    (hf3 : (w &&& 0x00007000) >>> 12 = 4)
    (hrs1 : (w &&& 0x000f8000) >>> 15 = 0)
    (hrs2 : (w &&& 0x01f00000) >>> 20 ≠ 0) :
    (Instruction.new w).instr.instr_op = RV32I.BLT ∧
    (PseudoInstrWith1Instr.new (Instruction.new w)).code = "bgez" := by
  have hinstr : (Instruction.new w).instr = ⟨RVT.B, RV32I.BLT⟩ := by
    simp [Instruction.new, InstrType.new, RVT.new, RV32I.new,
      RV32_OP_CODES_LUI, RV32_OP_CODES_AUIPC, RV32_OP_CODES_JAL, RV32_OP_CODES_JALR,
      RV32_OP_CODES_BR, RV32_OP_CODES_MEM_LD, RV32_OP_CODES_MEM_ST,
      RV32_OP_CODES_ARITH_REG, RV32_OP_CODES_ARITH_IMM, hop, hf3]
  have hrd : (Instruction.new w).rd = none := by
    simp [Instruction.new, InstrType.new, InstrType.has_rd, RVT.new, RV32I.new,
      RV32_OP_CODES_LUI, RV32_OP_CODES_AUIPC, RV32_OP_CODES_JAL, RV32_OP_CODES_JALR,
      RV32_OP_CODES_BR, RV32_OP_CODES_MEM_LD, RV32_OP_CODES_MEM_ST,
      RV32_OP_CODES_ARITH_REG, RV32_OP_CODES_ARITH_IMM, hop, hf3]
  have hr1 : (Instruction.new w).rs1 = some 0 := by
    simp [Instruction.new, InstrType.new, InstrType.has_rs1, RVT.new, RV32I.new,
      RV32_OP_CODES_LUI, RV32_OP_CODES_AUIPC, RV32_OP_CODES_JAL, RV32_OP_CODES_JALR,
      RV32_OP_CODES_BR, RV32_OP_CODES_MEM_LD, RV32_OP_CODES_MEM_ST,
      RV32_OP_CODES_ARITH_REG, RV32_OP_CODES_ARITH_IMM, hop, hf3, hrs1]
  have hr2 : (Instruction.new w).rs2 = some ((w &&& 0x01f00000) >>> 20) := by
    simp [Instruction.new, InstrType.new, InstrType.has_rs2, RVT.new, RV32I.new,
      RV32_OP_CODES_LUI, RV32_OP_CODES_AUIPC, RV32_OP_CODES_JAL, RV32_OP_CODES_JALR,
      RV32_OP_CODES_BR, RV32_OP_CODES_MEM_LD, RV32_OP_CODES_MEM_ST,
      RV32_OP_CODES_ARITH_REG, RV32_OP_CODES_ARITH_IMM, hop, hf3]
  have hopr : (Instruction.new w).instr.instr_op = RV32I.BLT := by
    rw [hinstr]
  refine ⟨hopr, ?_⟩
  have hr2ne : (Instruction.new w).rs2 ≠ some 0 := by
    rw [hr2]
    simp [hrs2]
  simp [PseudoInstrWith1Instr.new, pseudo_rd_zero, pseudo_rd_ra, pseudo_rs2_zero,
    pseudo_rs1_zero, hrd, hr1, hopr, hr2ne]

/-- Claim C8 (witness): `BLT x0, x1, 0` (word `0x00104063`) renders as
`bgez`. -/
theorem pseudo_blt_rs1_zero_bgez_witness :
    (Instruction.new 0x00104063).instr.instr_op = RV32I.BLT ∧
    (PseudoInstrWith1Instr.new (Instruction.new 0x00104063)).code = "bgez" :=
  pseudo_blt_rs1_zero_bgez 0x00104063 (by decide) (by decide) (by decide) (by decide)
